import Mathlib

/-!
Verification development for the btcmap triage pipeline
(scripts/phase1_verify.py, scripts/phase2_verify.py, scripts/confidence.py,
scripts/triage.py).

The Python modules are shallowly embedded: the regex-based record extraction
is translated into executable character-list matchers that implement the
exact patterns of the source, the five phase-1 checks and the confidence
scorer become pure functions on the extracted record and the configured
weight tables, the phase-2 social-DM channel becomes a function of the
auto-send flag, and the orchestrator batch loop becomes a recursion over a
list of issues with an Except-valued per-issue processor.
-/

namespace Triage

/-! ## Character and list utilities -/

/-- Python regex `\s` character class (also the characters stripped by
`str.strip()`): space, tab, newline, carriage return, vertical tab,
form feed. -/
def pyIsSpace (c : Char) : Bool :=
  c = ' ' || c = '\t' || c = '\n' || c = '\r' || c = '\x0b' || c = '\x0c'

/-- Drop leading `\s` characters, as the greedy `\s*` of the source
patterns does. -/
def skipSp (cs : List Char) : List Char :=
  cs.dropWhile pyIsSpace

/-- `str.strip()` on a character list: drop whitespace from both ends. -/
def stripL (cs : List Char) : List Char :=
  ((cs.dropWhile pyIsSpace).reverse.dropWhile pyIsSpace).reverse

/-- `str.strip()` on a string. -/
def stripStr (s : String) : String :=
  String.mk (stripL s.toList)

/-- `str.lower()`; the issue bodies handled here are ASCII, where Python
lowercasing agrees with `Char.toLower`. -/
def lowerStr (s : String) : String :=
  String.mk (s.toList.map Char.toLower)

/-- Does `cs` start with the literal `pat` (case-sensitive)? -/
def startsWithL : List Char → List Char → Bool
  | [], _ => true
  | _ :: _, [] => false
  | p :: ps, c :: cs => p = c && startsWithL ps cs

/-- Substring containment on character lists, the model of Python's
`pat in s` test. -/
def hasSubL (pat : List Char) : List Char → Bool
  | [] => pat.isEmpty
  | c :: t => startsWithL pat (c :: t) || hasSubL pat t

/-- Python's `pat in s` substring test. -/
def containsSub (s pat : String) : Bool :=
  hasSubL pat.toList s.toList

/-- Match a case-sensitive literal at the head, returning the rest. -/
def dropLitCS : List Char → List Char → Option (List Char)
  | [], cs => some cs
  | _ :: _, [] => none
  | p :: ps, c :: cs => if c = p then dropLitCS ps cs else none

/-- Match a case-insensitive literal at the head, returning the rest;
models a regex literal compiled with `re.IGNORECASE`. -/
def dropLitCI : List Char → List Char → Option (List Char)
  | [], cs => some cs
  | _ :: _, [] => none
  | p :: ps, c :: cs => if c.toLower = p.toLower then dropLitCI ps cs else none

/-- Does `cs` start with the literal `pat`, case-insensitively? -/
def startsWithCI (cs : List Char) (pat : String) : Bool :=
  (dropLitCI pat.toList cs).isSome

/-- `re.search` position scan: try the position matcher at every suffix,
left to right, returning the leftmost success. -/
def searchPos (m : List Char → Option α) : List Char → Option α
  | [] => m []
  | c :: t =>
    match m (c :: t) with
    | some r => some r
    | none => searchPos m t

/-- The characters consumed between an original list and the rest
returned by a matcher (used to recover the matched text). -/
def takenBetween (orig rest : List Char) : List Char :=
  orig.take (orig.length - rest.length)

/-- Greedy `\d+`: the maximal leading digit run, failing when empty. -/
def matchDigits1 (cs : List Char) : Option (List Char × List Char) :=
  let p := cs.span Char.isDigit
  if p.1.isEmpty then none else some p

/-- The regex fragment `-?\d+\.\d+` used for coordinates in every
extraction pattern: optional sign, digits, a dot, digits.  Returns the
matched text and the rest. -/
def matchFloat (cs : List Char) : Option (List Char × List Char) :=
  let (sgn, cs1) :=
    match cs with
    | '-' :: t => (['-'], t)
    | _ => (([] : List Char), cs)
  match matchDigits1 cs1 with
  | none => none
  | some (ip, cs2) =>
    match cs2 with
    | '.' :: cs3 =>
      match matchDigits1 cs3 with
      | none => none
      | some (fp, cs4) => some (sgn ++ ip ++ ('.' :: fp), cs4)
    | _ => none

/-- Lazy `(.+?)` capture followed by a lookahead: capture the shortest
nonempty run of non-newline characters after which `stop` holds. -/
def lazyCap (stop : List Char → Bool) : List Char → Option (List Char)
  | [] => none
  | c :: t =>
    if c = '\n' then none
    else if stop t then some [c]
    else (lazyCap stop t).map (fun r => c :: r)

/-- Lookahead `(?=\n|$)`. -/
def stopAtNl : List Char → Bool
  | [] => true
  | c :: _ => c = '\n'

/-- Lookahead `(?=\n|Lat:|$)` of the manual address pattern (the regex is
compiled with `re.IGNORECASE`, so the `Lat:` literal is case-insensitive). -/
def stopAddr (cs : List Char) : Bool :=
  match cs with
  | [] => true
  | c :: _ => c = '\n' || startsWithCI cs "lat:"

/-! ## Field matchers

Each `...At` definition matches one source regex at a fixed position and
returns the capture group; the field extractor wraps it in the `re.search`
position scan. -/

/-- `https?://\S+` (first alternative of the website patterns). -/
def httpAt (cs : List Char) : Option (List Char) :=
  match dropLitCI "http".toList cs with
  | none => none
  | some cs1 =>
    let cs2 :=
      match cs1 with
      | c :: t => if c.toLower = 's' then t else cs1
      | [] => cs1
    match dropLitCS "://".toList cs2 with
    | none => none
    | some cs3 =>
      let run := cs3.takeWhile (fun c => !pyIsSpace c)
      if run.isEmpty then none
      else some (takenBetween cs (cs3.drop run.length))

/-- `\S+\.\S+` (second alternative of the manual website pattern): the
maximal run of non-space characters, matching exactly when it has a dot
with at least one non-space character on each side. -/
def dottedRunAt (cs : List Char) : Option (List Char) :=
  let run := cs.takeWhile (fun c => !pyIsSpace c)
  if ((run.drop 1).dropLast).any (fun c => c = '.') then some run else none

/-- Manual pattern `Merchant name:\s*(.+?)(?=\n|$)`. -/
def mNameAt (cs : List Char) : Option (List Char) :=
  (dropLitCI "merchant name:".toList cs).bind (fun r => lazyCap stopAtNl (skipSp r))

/-- Manual pattern `Address:\s*(.+?)(?=\n|Lat:|$)`. -/
def mAddressAt (cs : List Char) : Option (List Char) :=
  (dropLitCI "address:".toList cs).bind (fun r => lazyCap stopAddr (skipSp r))

/-- Manual pattern `Lat:\s*(-?\d+\.\d+)`. -/
def mLatAt (cs : List Char) : Option (List Char) :=
  (dropLitCI "lat:".toList cs).bind (fun r => (matchFloat (skipSp r)).map (fun p => p.1))

/-- Manual pattern `Long:\s*(-?\d+\.\d+)`. -/
def mLonAt (cs : List Char) : Option (List Char) :=
  (dropLitCI "long:".toList cs).bind (fun r => (matchFloat (skipSp r)).map (fun p => p.1))

/-- Manual and square pattern `Category:\s*(.+?)(?=\n|$)`. -/
def mCategoryAt (cs : List Char) : Option (List Char) :=
  (dropLitCI "category:".toList cs).bind (fun r => lazyCap stopAtNl (skipSp r))

/-- Manual pattern `Phone:\s*([\d\s\-\+\(\)]+)`.  (When the greedy `\s*`
leaves no character of the class, regex backtracking can still capture
whitespace alone, but that capture strips to the empty string and is then
discarded by the falsy-value filter, so the extracted field is the same.) -/
def mPhoneAt (cs : List Char) : Option (List Char) :=
  (dropLitCI "phone:".toList cs).bind (fun r =>
    let body := skipSp r
    let run := body.takeWhile (fun c =>
      c.isDigit || pyIsSpace c || c = '-' || c = '+' || c = '(' || c = ')')
    if run.isEmpty then none else some run)

/-- Manual pattern `Website:\s*(https?://\S+|\S+\.\S+)`. -/
def mWebsiteAt (cs : List Char) : Option (List Char) :=
  (dropLitCI "website:".toList cs).bind (fun r =>
    let body := skipSp r
    match httpAt body with
    | some cap => some cap
    | none => dottedRunAt body)

/-- Square pattern `Name:\s*(.+?)(?=\n|$)`. -/
def sNameAt (cs : List Char) : Option (List Char) :=
  (dropLitCI "name:".toList cs).bind (fun r => lazyCap stopAtNl (skipSp r))

/-- Square pattern `"address":\s*"([^"]+)"`. -/
def sAddressAt (cs : List Char) : Option (List Char) :=
  (dropLitCI "\"address\":".toList cs).bind (fun r =>
    match skipSp r with
    | '"' :: r2 =>
      let run := r2.takeWhile (fun c => c ≠ '"')
      if run.isEmpty then none
      else
        match r2.drop run.length with
        | '"' :: _ => some run
        | _ => none
    | _ => none)

/-- Square pattern `lat[=:]\s*(-?\d+\.\d+)`. -/
def sLatAt (cs : List Char) : Option (List Char) :=
  (dropLitCI "lat".toList cs).bind (fun r =>
    match r with
    | c :: r2 =>
      if c = '=' || c = ':' then (matchFloat (skipSp r2)).map (fun p => p.1) else none
    | [] => none)

/-- Square pattern `lon[=:]\s*(-?\d+\.\d+)`. -/
def sLonAt (cs : List Char) : Option (List Char) :=
  (dropLitCI "lon".toList cs).bind (fun r =>
    match r with
    | c :: r2 =>
      if c = '=' || c = ':' then (matchFloat (skipSp r2)).map (fun p => p.1) else none
    | [] => none)

/-- Square pattern `website[=:]\s*(https?://\S+)`. -/
def sWebsiteAt (cs : List Char) : Option (List Char) :=
  (dropLitCI "website".toList cs).bind (fun r =>
    match r with
    | c :: r2 => if c = '=' || c = ':' then httpAt (skipSp r2) else none
    | [] => none)

/-! ## The embedded map-link pattern

`openstreetmap\.org.*map=\d+/(-?\d+\.\d+)/(-?\d+\.\d+)` — searched
case-sensitively (this `re.search` has no flags) by both parsers after
the field patterns. -/

/-- The `map=\d+/(-?\d+\.\d+)/(-?\d+\.\d+)` tail of the map-link
pattern at a fixed position, returning the two captured coordinates. -/
def osmTailAt (cs : List Char) : Option (String × String) :=
  (dropLitCS "map=".toList cs).bind (fun r =>
    (matchDigits1 r).bind (fun p =>
      match p.2 with
      | '/' :: r2 =>
        (matchFloat r2).bind (fun q =>
          match q.2 with
          | '/' :: r3 =>
            (matchFloat r3).map (fun q2 => (String.mk q.1, String.mk q2.1))
          | _ => none)
      | _ => none))

/-- The greedy `.*` between the literal and the `map=` tail: `.` does not
match a newline, and greediness prefers the latest `map=` start on the
line, so scan the remaining same-line positions and keep the deepest
success. -/
def osmScan : List Char → Option (String × String)
  | [] => none
  | c :: t =>
    if c = '\n' then none
    else
      match osmScan t with
      | some r => some r
      | none => osmTailAt (c :: t)

/-- The whole map-link pattern at a fixed position. -/
def osmAt (cs : List Char) : Option (String × String) :=
  (dropLitCS "openstreetmap.org".toList cs).bind osmScan

/-- `re.search` of the map-link pattern over the body, as both parsers
run it to opportunistically override lat/lon. -/
def findOsmLink (body : String) : Option (String × String) :=
  searchPos osmAt body.toList

/-! ## Merchant record and the two format parsers -/

/-- Source-format tag assigned by `_parse_issue` (`'square'`, `'manual'`,
`'unknown'`). -/
inductive Source where
  | square
  | manual
  | unknown
deriving DecidableEq

/-- The extracted merchant record.  Fields are the entries of the data
dict read by the downstream checks; entries never read by any embedded
check (`payment_methods`, `opening_hours`, `contact`, `data_source`,
`id`, `origin`, `description`) are omitted.  `none` models an absent
dict key. -/
structure MerchantRecord where
  name : String
  source : Source
  address : Option String := none
  lat : Option String := none
  lon : Option String := none
  phone : Option String := none
  category : Option String := none
  website : Option String := none
  rawBody : String := ""
deriving DecidableEq

/-- Python truthiness of `data.get(field)` for a string field: the key
is present and the value is nonempty. -/
def truthy : Option String → Bool
  | none => false
  | some s => !s.isEmpty

/-- The falsy/placeholder filter of `_parse_manual_format`: the stripped
value is stored only when nonempty and not a placeholder
(`''`, `'n/a'`, `'none'`, case-insensitively). -/
def manualFilter (v : String) : Option String :=
  if v.isEmpty then none
  else if lowerStr v = "n/a" || lowerStr v = "none" then none
  else some v

/-- Run a manual-format field matcher over the body: `re.search`, strip
the capture, then apply the falsy-value filter. -/
def manualField (m : List Char → Option (List Char)) (cs : List Char) : Option String :=
  (searchPos m cs).bind (fun cap => manualFilter (String.mk (stripL cap)))

/-- Run a square-format field matcher over the body: `re.search` then
strip the capture (the square parser stores every match, unfiltered). -/
def squareField (m : List Char → Option (List Char)) (cs : List Char) : Option String :=
  (searchPos m cs).map (fun cap => String.mk (stripL cap))

/-- Keep the newly extracted value when present, the old one otherwise —
the `dict.update` semantics of `_parse_issue`. -/
def updOpt (newV old : Option String) : Option String :=
  match newV with
  | some v => some v
  | none => old

/-- `_parse_square_format` merged into a record (field regexes evaluated
independently, then the map-link coordinates override lat/lon when the
link pattern matches). -/
def applySquare (r : MerchantRecord) (b : String) : MerchantRecord :=
  let cs := b.toList
  let r1 : MerchantRecord :=
    { r with
      name := (squareField sNameAt cs).getD r.name
      category := updOpt (squareField mCategoryAt cs) r.category
      address := updOpt (squareField sAddressAt cs) r.address
      lat := updOpt (squareField sLatAt cs) r.lat
      lon := updOpt (squareField sLonAt cs) r.lon
      website := updOpt (squareField sWebsiteAt cs) r.website }
  match findOsmLink b with
  | some (la, lo) => { r1 with lat := some la, lon := some lo }
  | none => r1

/-- `_parse_manual_format` merged into a record (each field regex
evaluated independently with the strip-and-filter step, then the
map-link coordinates override lat/lon when the link pattern matches). -/
def applyManual (r : MerchantRecord) (b : String) : MerchantRecord :=
  let cs := b.toList
  let r1 : MerchantRecord :=
    { r with
      name := (manualField mNameAt cs).getD r.name
      address := updOpt (manualField mAddressAt cs) r.address
      lat := updOpt (manualField mLatAt cs) r.lat
      lon := updOpt (manualField mLonAt cs) r.lon
      category := updOpt (manualField mCategoryAt cs) r.category
      website := updOpt (manualField mWebsiteAt cs) r.website
      phone := updOpt (manualField mPhoneAt cs) r.phone }
  match findOsmLink b with
  | some (la, lo) => { r1 with lat := some la, lon := some lo }
  | none => r1

/-- The base record of `_parse_issue` before format dispatch: name
defaults to the issue title, source `'unknown'`. -/
def baseRecord (title body : String) : MerchantRecord :=
  { name := title, source := Source.unknown, rawBody := body }

/-- The square-import detection condition of `_parse_issue`:
`'Origin: square' in body or 'Id:' in body and 'square' in body.lower()`
(Python binds this as a disjunction whose right side is the
conjunction). -/
def detectSquare (body : String) : Bool :=
  containsSub body "Origin: square" ||
    (containsSub body "Id:" && containsSub (lowerStr body) "square")

/-- `_parse_issue`: detect the format and apply its rule table; the
square signature takes priority over the manual `Merchant name:`
marker. -/
def parseIssue (title body : String) : MerchantRecord :=
  if detectSquare body then
    applySquare { baseRecord title body with source := Source.square } body
  else if containsSub body "Merchant name:" then
    applyManual { baseRecord title body with source := Source.manual } body
  else baseRecord title body

/-! ## Phase-1 checks (`Phase1Verifier`) -/

/-- Check status strings of the source: `'pass'`, `'partial'`,
`'fail'`, `'unclear'` (the `'partial'` string is named `semiPass`
here). -/
inductive CheckStatus where
  | pass
  | semiPass
  | fail
  | unclear
deriving DecidableEq

/-- One check outcome: status, score, and the max score taken from the
configured weight of the check (the free-form details dict is omitted —
no embedded claim reads it). -/
structure CheckOutcome where
  status : CheckStatus
  score : Nat
  max_score : Nat
deriving DecidableEq

/-- The `config['weights']` table. -/
structure Weights where
  osm_check : Nat
  website_check : Nat
  social_media : Nat
  cross_reference : Nat
  data_consistency : Nat
deriving DecidableEq

/-- An exact decimal number `num / 10 ^ scale`, the value denoted by a
coordinate string. -/
structure DecimalVal where
  num : Int
  scale : Nat
deriving DecidableEq

/-- The rational value denoted by a decimal. -/
def DecimalVal.toRat (v : DecimalVal) : ℚ :=
  (v.num : ℚ) / ((10 : ℚ) ^ v.scale)

/-- Python `float()` applied to the coordinate strings the extraction
patterns produce: optional sign, digits, optional fractional part
(scientific notation and other float syntaxes are not produced by any
pattern and are not modelled).  The denoted value is kept exactly as a
scaled decimal. -/
def floatOfCoordStr (s : String) : Option DecimalVal :=
  let cs := s.toList
  let (neg, cs1) :=
    match cs with
    | '-' :: t => (true, t)
    | _ => (false, cs)
  match matchDigits1 cs1 with
  | none => none
  | some (ip, cs2) =>
    let ipv : Nat := ip.foldl (fun n c => 10 * n + (c.toNat - '0'.toNat)) 0
    match cs2 with
    | [] => some { num := if neg then -(ipv : Int) else (ipv : Int), scale := 0 }
    | '.' :: cs3 =>
      match matchDigits1 cs3 with
      | some (fp, []) =>
        let fpv : Nat := fp.foldl (fun n c => 10 * n + (c.toNat - '0'.toNat)) 0
        let m : Nat := ipv * 10 ^ fp.length + fpv
        some { num := if neg then -(m : Int) else (m : Int), scale := fp.length }
      | _ => none
    | _ => none

/-- `-90 <= lat <= 90` on the exact decimal value (the comparison is
multiplied through by the positive denominator `10 ^ scale`). -/
def inLatRange (v : DecimalVal) : Bool :=
  decide (-90 * ((10 ^ v.scale : Nat) : Int) ≤ v.num ∧
          v.num ≤ 90 * ((10 ^ v.scale : Nat) : Int))

/-- `-180 <= lon <= 180` on the exact decimal value. -/
def inLonRange (v : DecimalVal) : Bool :=
  decide (-180 * ((10 ^ v.scale : Nat) : Int) ≤ v.num ∧
          v.num ≤ 180 * ((10 ^ v.scale : Nat) : Int))

/-- `_check_osm`: no coordinates → `fail`/0; unparseable coordinates →
the `ValueError` branch leaves `fail`/0; otherwise `unclear` with the
baseline `max(5, int(max_score * 0.25))`. -/
def checkOsm (d : MerchantRecord) (w : Weights) : CheckOutcome :=
  let max_score := w.osm_check
  if !truthy d.lat || !truthy d.lon then
    { status := CheckStatus.fail, score := 0, max_score := max_score }
  else
    match floatOfCoordStr (d.lat.getD ""), floatOfCoordStr (d.lon.getD "") with
    | some _, some _ =>
      { status := CheckStatus.unclear, score := max 5 (max_score / 4),
        max_score := max_score }
    | _, _ =>
      { status := CheckStatus.fail, score := 0, max_score := max_score }

/-- `_check_website`: no website → `fail`/0; otherwise `unclear` with the
hard-coded partial-credit baseline 5 (URL normalisation touches only the
details dict, not the score). -/
def checkWebsite (d : MerchantRecord) (w : Weights) : CheckOutcome :=
  if !truthy d.website then
    { status := CheckStatus.fail, score := 0, max_score := w.website_check }
  else
    { status := CheckStatus.unclear, score := 5, max_score := w.website_check }

/-- `_check_social_media`: unconditionally `unclear` with the hard-coded
partial-credit baseline 5. -/
def checkSocialMedia (_d : MerchantRecord) (w : Weights) : CheckOutcome :=
  { status := CheckStatus.unclear, score := 5, max_score := w.social_media }

/-- `_check_cross_reference`: empty merchant name → `fail`/0; otherwise
`unclear` with the hard-coded partial-credit baseline 5. -/
def checkCrossReference (d : MerchantRecord) (w : Weights) : CheckOutcome :=
  if d.name.isEmpty then
    { status := CheckStatus.fail, score := 0, max_score := w.cross_reference }
  else
    { status := CheckStatus.unclear, score := 5, max_score := w.cross_reference }

/-- The raw point accumulation of `_check_data_consistency`, translated
statement by statement: +3 address, +4 parseable in-range coordinates,
+2 phone, +1 category. -/
def consistencyRaw (d : MerchantRecord) : Nat :=
  let s1 : Nat := if truthy d.address then 0 + 3 else 0
  let s2 : Nat :=
    if truthy d.lat && truthy d.lon then
      match floatOfCoordStr (d.lat.getD ""), floatOfCoordStr (d.lon.getD "") with
      | some la, some lo =>
        if inLatRange la && inLonRange lo then s1 + 4 else s1
      | _, _ => s1
    else s1
  let s3 : Nat := if truthy d.phone then s2 + 2 else s2
  if truthy d.category then s3 + 1 else s3

/-- `_check_data_consistency`: the raw points capped at the configured
weight, status `pass` when the raw (pre-cap) points reach 5, else
`partial`. -/
def checkDataConsistency (d : MerchantRecord) (w : Weights) : CheckOutcome :=
  { status := if 5 ≤ consistencyRaw d then CheckStatus.pass else CheckStatus.semiPass,
    score := min (consistencyRaw d) w.data_consistency,
    max_score := w.data_consistency }

/-- The check map of a `Phase1Verifier.verify` result together with the
aggregate score field.  The source computes
`results['score'] = sum(check['score'] for check in results['checks'].values())`
over the insertion order osm, website, social, cross_reference,
consistency. -/
structure Phase1Result where
  merchant_name : String
  osm : CheckOutcome
  website : CheckOutcome
  social : CheckOutcome
  cross_reference : CheckOutcome
  consistency : CheckOutcome
  score : Nat
  max_score : Nat
deriving DecidableEq

/-- `Phase1Verifier.verify` after parsing: run the five checks on the
extracted record and total their scores (no cap is applied to the stored
score field). -/
def runChecks (d : MerchantRecord) (w : Weights) : Phase1Result :=
  let osm := checkOsm d w
  let website := checkWebsite d w
  let social := checkSocialMedia d w
  let cross := checkCrossReference d w
  let cons := checkDataConsistency d w
  { merchant_name := d.name
    osm := osm, website := website, social := social
    cross_reference := cross, consistency := cons
    score := osm.score + website.score + social.score + cross.score + cons.score
    max_score := 100 }

/-- `Phase1Verifier.verify` on a raw issue: parse, then run the checks. -/
def phase1Verify (title body : String) (w : Weights) : Phase1Result :=
  runChecks (parseIssue title body) w

/-! ## Confidence scorer (`ConfidenceScorer`) -/

/-- `ConfidenceScorer.calculate_phase1_score`: re-sum the per-check
scores and cap at 100 (our model always has the `'checks'` key, so the
missing-key guard returning 0 does not arise). -/
def calculatePhase1Score (r : Phase1Result) : Nat :=
  min (r.osm.score + r.website.score + r.social.score +
       r.cross_reference.score + r.consistency.score) 100

/-- Outreach channel statuses of the source (`'skipped'`, `'pending'`,
`'drafted'`, `'sent'`, `'confirmed'`, `'denied'`). -/
inductive OutreachStatus where
  | skipped
  | pending
  | drafted
  | sent
  | confirmed
  | denied
deriving DecidableEq

/-- One phase-2 channel result: status, score, and the
`details['action']` tag where the source writes one. -/
structure OutreachOutcome where
  status : OutreachStatus
  score : Nat
  action : Option String := none
deriving DecidableEq

/-- The `config['phase2_weights']` table. -/
structure Phase2Weights where
  email_confirmation : Nat
  social_dm_confirmation : Nat
deriving DecidableEq

/-- The two-channel phase-2 result mapping. -/
structure Phase2Results where
  email : OutreachOutcome
  social_dm : OutreachOutcome
deriving DecidableEq

/-- `ConfidenceScorer.calculate_phase2_bonus`: 0 for an absent/empty
mapping, otherwise the configured bonus for each channel whose status is
`'confirmed'`. -/
def calculatePhase2Bonus (w : Phase2Weights) (pr : Option Phase2Results) : Nat :=
  match pr with
  | none => 0
  | some r =>
    let b1 : Nat := if r.email.status = OutreachStatus.confirmed
      then w.email_confirmation else 0
    let b2 : Nat := if r.social_dm.status = OutreachStatus.confirmed
      then w.social_dm_confirmation else 0
    b1 + b2

/-- `ConfidenceScorer.calculate_final_score`: phase-1 score plus the
phase-2 bonus, capped at 100. -/
def calculateFinalScore (w : Phase2Weights) (phase1Score : Nat)
    (pr : Option Phase2Results) : Nat :=
  min (phase1Score + calculatePhase2Bonus w pr) 100

/-- The `config['thresholds']` table. -/
structure Thresholds where
  high : Nat
  medium : Nat
  low : Nat
deriving DecidableEq

/-- `ConfidenceScorer.get_recommendation`: thresholds evaluated high to
low with `score >= threshold`. -/
def getRecommendation (t : Thresholds) (score : Nat) : String :=
  if t.high ≤ score then "HIGH CONFIDENCE - Recommend Approval"
  else if t.medium ≤ score then "MEDIUM CONFIDENCE - Recommend Approval with Notes"
  else if t.low ≤ score then "LOW CONFIDENCE - Needs Human Review"
  else "VERY LOW CONFIDENCE - Recommend Rejection or More Info"

/-- The tier rank of a recommendation string (3 = high confidence,
2 = medium, 1 = low, 0 = very low), used to state monotonicity. -/
def recTier (s : String) : Nat :=
  if s = "HIGH CONFIDENCE - Recommend Approval" then 3
  else if s = "MEDIUM CONFIDENCE - Recommend Approval with Notes" then 2
  else if s = "LOW CONFIDENCE - Needs Human Review" then 1
  else 0

/-! ## Phase-2 social-DM channel (`Phase2Verifier._verify_social_dm`) -/

/-- `_verify_social_dm`: the result enters with status `'pending'`,
score 0; then the auto-send branch sets `details['action'] = 'drafted'`
and status `'drafted'`, and the manual branch sets
`details['action'] = 'drafted_for_review'` and status `'drafted'`;
finally the score is set to 0 (no points until confirmed). -/
def verifySocialDm (autoSend : Bool) : OutreachOutcome :=
  let r : OutreachOutcome := { status := OutreachStatus.pending, score := 0 }
  let r :=
    if autoSend then
      { r with status := OutreachStatus.drafted, action := some "drafted" }
    else
      { r with status := OutreachStatus.drafted, action := some "drafted_for_review" }
  { r with score := 0 }

/-! ## Orchestrator batch loop (`TriageOrchestrator.run`) -/

/-- The fields of a fetched issue the batch loop touches. -/
structure Issue where
  number : Nat
  title : String
  body : String
deriving DecidableEq

/-- One entry of the orchestrator's results list: either the
`_process_issue` result, or the error dict
`(issue_number, error message, status 'error')` recorded by the
`except` branch. -/
inductive BatchEntry (α : Type) where
  | completed (r : α)
  | failed (issue_number : Nat) (error : String)
deriving DecidableEq

/-- The `status` key of a batch entry: only error entries carry one. -/
def BatchEntry.statusTag : BatchEntry α → Option String
  | BatchEntry.completed _ => none
  | BatchEntry.failed _ _ => some "error"

/-- The batch loop of `TriageOrchestrator.run`: process the issues
strictly in order; a per-issue failure is caught, recorded as an error
entry, and the loop continues with the next issue. -/
def runBatch (process : Issue → Except String α) : List Issue → List (BatchEntry α)
  | [] => []
  | i :: rest =>
    (match process i with
     | Except.ok r => BatchEntry.completed r
     | Except.error e => BatchEntry.failed i.number e) :: runBatch process rest

/-- The single entry the loop body produces for one issue. -/
def entryFor (process : Issue → Except String α) (i : Issue) : BatchEntry α :=
  match process i with
  | Except.ok r => BatchEntry.completed r
  | Except.error e => BatchEntry.failed i.number e

/-! ## Spec-side formulas and sample inputs used in the statements -/

/-- Coordinates present, parseable and in range — the condition worth
+4 in the data-consistency rubric as the spec words it. -/
def coordValidFlag (d : MerchantRecord) : Bool :=
  (truthy d.lat && truthy d.lon) &&
    (match floatOfCoordStr (d.lat.getD ""), floatOfCoordStr (d.lon.getD "") with
     | some la, some lo => inLatRange la && inLonRange lo
     | _, _ => false)

/-- The spec's itemized data-consistency points:
address +3, valid coordinates +4, phone +2, category +1. -/
def consistencyPoints (d : MerchantRecord) : Nat :=
  (if truthy d.address then 3 else 0) +
  (if coordValidFlag d then 4 else 0) +
  (if truthy d.phone then 2 else 0) +
  (if truthy d.category then 1 else 0)

/-- Is the email channel of a phase-2 result mapping confirmed?  An
absent mapping has no confirmed channel. -/
def emailConfirmed : Option Phase2Results → Bool
  | none => false
  | some r => decide (r.email.status = OutreachStatus.confirmed)

/-- Is the social-DM channel of a phase-2 result mapping confirmed? -/
def dmConfirmed : Option Phase2Results → Bool
  | none => false
  | some r => decide (r.social_dm.status = OutreachStatus.confirmed)

/-- The default weight table of the repository configuration. -/
def defaultWeights : Weights :=
  { osm_check := 20, website_check := 30, social_media := 20,
    cross_reference := 20, data_consistency := 10 }

/-- A weight table whose OSM weight is below the hard-coded baseline 5
(legal: the weights still sum below 100). -/
def smallOsmWeights : Weights :=
  { osm_check := 4, website_check := 30, social_media := 20,
    cross_reference := 20, data_consistency := 10 }

/-- A weight table summing above 100. -/
def oversizedWeights : Weights :=
  { osm_check := 400, website_check := 30, social_media := 20,
    cross_reference := 20, data_consistency := 10 }

/-- A fully populated merchant record. -/
def fullRecord : MerchantRecord :=
  { name := "Cafe", source := Source.manual, address := some "5 Main St",
    lat := some "40.7128", lon := some "-74.0060", phone := some "+1-555-0123",
    category := some "Restaurant", website := some "https://example.com" }

/-- The default phase-2 bonus weight table. -/
def defaultPhase2Weights : Phase2Weights :=
  { email_confirmation := 20, social_dm_confirmation := 15 }

/-- The spec's Scenario A manual-format body. -/
def scenarioABody : String :=
  "Merchant name: Joe Cafe\nAddress: 123 Main St\nLat: 40.7128\nLong: -74.0060\nPhone: +1-555-0123\nCategory: Restaurant\n"

/-- A manual-format body carrying a latitude label but no longitude
label and no map link. -/
def halfCoordBody : String :=
  "Merchant name: Solo Cafe\nLat: 40.7128\n"

/-- A manual-format body carrying an embedded map link. -/
def mapLinkBody : String :=
  "Merchant name: Map Cafe\nhttps://www.openstreetmap.org/#map=19/40.7128/-74.0060\n"

/-- A body matching the import signature through the `Id:`-plus-`square`
conjunction while also carrying the manual `Merchant name:` label. -/
def squareAndManualBody : String :=
  "Id: 123\nMerchant name: Foo\nImported from Square\nName: Bar\nlat: 1.5\n"

/-! ## Helper lemmas -/

/-- The sequential point accumulation of the data-consistency check
equals the spec's itemized sum. -/
theorem consistencyRaw_eq (d : MerchantRecord) :
    consistencyRaw d = consistencyPoints d := by
  unfold consistencyRaw consistencyPoints coordValidFlag
  cases hL : (truthy d.lat && truthy d.lon) with
  | false => simp [hL] ; split_ifs <;> omega
  | true =>
    rcases hla : floatOfCoordStr (d.lat.getD "") with _ | la
    · simp [hL, hla] ; split_ifs <;> omega
    · rcases hlo : floatOfCoordStr (d.lon.getD "") with _ | lo
      · simp [hL, hla, hlo] ; split_ifs <;> omega
      · simp [hL, hla, hlo] ; split_ifs <;> omega

/-- `_parse_square_format` never touches the source tag. -/
theorem applySquare_source (r : MerchantRecord) (b : String) :
    (applySquare r b).source = r.source := by
  unfold applySquare
  rcases h : findOsmLink b with _ | ⟨la, lo⟩ <;> simp [h]

/-! ## Claim theorems -/

/-- Claim C1, counterexample: with the OSM check weight configured to 4
(weights still summing below 100) and a record carrying coordinates, the
OSM check returns score `max(5, 4/4) = 5`, exceeding its configured
max — the claim's bound `score ≤ max_score` is false for that
configuration. -/
theorem c1_check_score_bound_counterexample :
    ¬ ((checkOsm fullRecord smallOsmWeights).score ≤
       (checkOsm fullRecord smallOsmWeights).max_score) := by decide

/-- Claim C1 (corrected): for every record and weight configuration in
which each fixed-baseline check's weight is at least 5, every check of
the battery returns a score between 0 and its configured max (the
`max_score` field of each outcome being exactly the configured weight;
scores are naturals, so the lower bound 0 is implicit).  The restriction
is forced: the OSM check scores `max(5, max_score/4)` and the website,
social-media and cross-reference checks score a hard-coded baseline 5,
each of which exceeds a configured max below 5. -/
theorem c1_check_score_bound (d : MerchantRecord) (w : Weights)
    (h1 : 5 ≤ w.osm_check) (h2 : 5 ≤ w.website_check)
    (h3 : 5 ≤ w.social_media) (h4 : 5 ≤ w.cross_reference) :
    ((checkOsm d w).score ≤ (checkOsm d w).max_score ∧
      (checkOsm d w).max_score = w.osm_check) ∧
    ((checkWebsite d w).score ≤ (checkWebsite d w).max_score ∧
      (checkWebsite d w).max_score = w.website_check) ∧
    ((checkSocialMedia d w).score ≤ (checkSocialMedia d w).max_score ∧
      (checkSocialMedia d w).max_score = w.social_media) ∧
    ((checkCrossReference d w).score ≤ (checkCrossReference d w).max_score ∧
      (checkCrossReference d w).max_score = w.cross_reference) ∧
    ((checkDataConsistency d w).score ≤ (checkDataConsistency d w).max_score ∧
      (checkDataConsistency d w).max_score = w.data_consistency) := by
  refine ⟨?_, ?_, ?_, ?_, ?_⟩
  · unfold checkOsm
    split
    · exact ⟨Nat.zero_le _, rfl⟩
    · split
      · refine ⟨Nat.max_le.mpr ⟨h1, Nat.div_le_self _ _⟩, rfl⟩
      · exact ⟨Nat.zero_le _, rfl⟩
  · unfold checkWebsite
    split
    · exact ⟨Nat.zero_le _, rfl⟩
    · exact ⟨h2, rfl⟩
  · exact ⟨h3, rfl⟩
  · unfold checkCrossReference
    split
    · exact ⟨Nat.zero_le _, rfl⟩
    · exact ⟨h4, rfl⟩
  · exact ⟨Nat.min_le_right _ _, rfl⟩

/-- Claim C1, witness: the (corrected) bound instantiated at the default
weight table and a fully populated record. -/
theorem c1_check_score_bound_witness :
    (5 ≤ defaultWeights.osm_check ∧ 5 ≤ defaultWeights.website_check ∧
     5 ≤ defaultWeights.social_media ∧ 5 ≤ defaultWeights.cross_reference) ∧
    ((checkOsm fullRecord defaultWeights).score ≤
        (checkOsm fullRecord defaultWeights).max_score ∧
      (checkOsm fullRecord defaultWeights).max_score = defaultWeights.osm_check) ∧
    ((checkWebsite fullRecord defaultWeights).score ≤
        (checkWebsite fullRecord defaultWeights).max_score ∧
      (checkWebsite fullRecord defaultWeights).max_score = defaultWeights.website_check) ∧
    ((checkSocialMedia fullRecord defaultWeights).score ≤
        (checkSocialMedia fullRecord defaultWeights).max_score ∧
      (checkSocialMedia fullRecord defaultWeights).max_score = defaultWeights.social_media) ∧
    ((checkCrossReference fullRecord defaultWeights).score ≤
        (checkCrossReference fullRecord defaultWeights).max_score ∧
      (checkCrossReference fullRecord defaultWeights).max_score =
        defaultWeights.cross_reference) ∧
    ((checkDataConsistency fullRecord defaultWeights).score ≤
        (checkDataConsistency fullRecord defaultWeights).max_score ∧
      (checkDataConsistency fullRecord defaultWeights).max_score =
        defaultWeights.data_consistency) :=
  ⟨by decide,
   c1_check_score_bound fullRecord defaultWeights
     (by decide) (by decide) (by decide) (by decide)⟩

/-- Claim C2, counterexample: with weights summing above 100 and a fully
populated record, every check maxes its baseline, the per-check scores
sum to 125, and the stored aggregate score field is that raw sum —
not `min(100, 125) = 100` as the claim states. -/
theorem c2_aggregate_cap_counterexample :
    (runChecks fullRecord oversizedWeights).score = 125 ∧
    (runChecks fullRecord oversizedWeights).score ≠
      min 100
        ((runChecks fullRecord oversizedWeights).osm.score +
         (runChecks fullRecord oversizedWeights).website.score +
         (runChecks fullRecord oversizedWeights).social.score +
         (runChecks fullRecord oversizedWeights).cross_reference.score +
         (runChecks fullRecord oversizedWeights).consistency.score) := by decide

/-- Claim C2 (corrected): the aggregate score field stored in a
Phase1Result is the plain, uncapped sum of the per-check scores; the
`min(100, Σ)` cap of the claim is applied only by the confidence
scorer's phase-1 aggregation, which is not written back into the
result.  (With weights summing above 100 the two genuinely differ, as
the counterexample shows.) -/
theorem c2_aggregate_is_uncapped_sum (d : MerchantRecord) (w : Weights) :
    (runChecks d w).score =
      (runChecks d w).osm.score + (runChecks d w).website.score +
      (runChecks d w).social.score + (runChecks d w).cross_reference.score +
      (runChecks d w).consistency.score ∧
    calculatePhase1Score (runChecks d w) = min ((runChecks d w).score) 100 :=
  ⟨rfl, rfl⟩

/-- Claim C3, counterexample: called with a phase-1 score above 100 (as
the pipeline can produce, since the stored aggregate is uncapped), the
final score is capped to 100 and is smaller than the phase-1 score —
the claim's `finalScore ≥ phase1Score` conjunct fails. -/
theorem c3_final_score_counterexample :
    calculateFinalScore defaultPhase2Weights 150 none = 100 ∧
    ¬ (150 ≤ calculateFinalScore defaultPhase2Weights 150 none) := by decide

/-- Claim C3 (corrected): the final score always equals
`min(100, phase1Score + phase2Bonus)`; `finalScore ≥ phase1Score`
additionally holds whenever the phase-1 score is at most 100 (as is the
case for the capped phase-1 aggregate of the confidence scorer). -/
theorem c3_final_score (w : Phase2Weights) (p1 : Nat) (pr : Option Phase2Results) :
    calculateFinalScore w p1 pr = min 100 (p1 + calculatePhase2Bonus w pr) ∧
    (p1 ≤ 100 → p1 ≤ calculateFinalScore w p1 pr) := by
  unfold calculateFinalScore
  exact ⟨Nat.min_comm _ _, fun h => by omega⟩

/-- Claim C3, witness: the corrected statement instantiated at phase-1
score 72 with no phase-2 results. -/
theorem c3_final_score_witness :
    (72 : Nat) ≤ 100 ∧ 72 ≤ calculateFinalScore defaultPhase2Weights 72 none :=
  ⟨by decide, (c3_final_score defaultPhase2Weights 72 none).2 (by decide)⟩

/-- Claim C4, counterexample: a manual-format body carrying a `Lat:`
label but no `Long:` label and no map link extracts a record with
latitude set and longitude absent — exactly one of the pair, which the
claim says never happens. -/
theorem c4_coordinate_pair_counterexample :
    (parseIssue "Solo Cafe" halfCoordBody).lat = some "40.7128" ∧
    (parseIssue "Solo Cafe" halfCoordBody).lon = none := by decide

/-- Claim C4 (corrected): only the map-link derivation treats the
coordinate pair atomically — whenever the embedded map-link pattern
matches the body and a format rule table is applied (source is not
`unknown`), both latitude and longitude are set to the link's
coordinates.  The labelled `Lat:`/`Long:` (and `lat=`/`lon=`) fields,
however, are extracted independently, so a record can end up with
exactly one of the pair set, as the counterexample shows. -/
theorem c4_coordinate_pair_amended (t b la lo : String)
    (hlink : findOsmLink b = some (la, lo))
    (hsrc : (parseIssue t b).source ≠ Source.unknown) :
    (parseIssue t b).lat = some la ∧ (parseIssue t b).lon = some lo := by
  unfold parseIssue at *
  by_cases h1 : detectSquare b
  · simp only [h1, if_true]
    unfold applySquare
    rw [hlink]
    exact ⟨rfl, rfl⟩
  · by_cases h2 : containsSub b "Merchant name:"
    · simp only [h1, h2, if_false, if_true]
      unfold applyManual
      rw [hlink]
      exact ⟨rfl, rfl⟩
    · exfalso
      exact hsrc (by simp [h1, h2, baseRecord])

/-- Claim C4, witness: the amended atomicity applied to a manual body
embedding a map link. -/
theorem c4_coordinate_pair_witness :
    findOsmLink mapLinkBody = some ("40.7128", "-74.0060") ∧
    (parseIssue "Map Cafe" mapLinkBody).lat = some "40.7128" ∧
    (parseIssue "Map Cafe" mapLinkBody).lon = some "-74.0060" :=
  ⟨by decide,
   c4_coordinate_pair_amended "Map Cafe" mapLinkBody "40.7128" "-74.0060"
     (by decide) (by decide)⟩

/-- Claim C5 (confirmed): the phase-2 bonus is the configured email
bonus when the email channel is confirmed plus the configured social-DM
bonus when that channel is confirmed, and nothing else; in particular
with the email channel confirmed at bonus weight 20 and the social-DM
channel still pending the bonus is exactly 20. -/
theorem c5_phase2_bonus :
    (∀ (w : Phase2Weights) (pr : Option Phase2Results),
      calculatePhase2Bonus w pr =
        (if emailConfirmed pr then w.email_confirmation else 0) +
        (if dmConfirmed pr then w.social_dm_confirmation else 0)) ∧
    calculatePhase2Bonus defaultPhase2Weights
      (some { email := { status := OutreachStatus.confirmed, score := 0 },
              social_dm := { status := OutreachStatus.pending, score := 0 } }) = 20 := by
  constructor
  · intro w pr
    cases pr with
    | none => rfl
    | some r =>
      unfold calculatePhase2Bonus emailConfirmed dmConfirmed
      by_cases he : r.email.status = OutreachStatus.confirmed <;>
        by_cases hd : r.social_dm.status = OutreachStatus.confirmed <;>
          simp [he, hd]
  · decide

/-- Claim C6 (confirmed): with strictly decreasing thresholds, the
recommendation tier is monotone in the score — a strictly higher score
is never assigned a strictly lower tier. -/
theorem c6_recommendation_monotone (t : Thresholds) (s1 s2 : Nat)
    (hlm : t.low < t.medium) (hmh : t.medium < t.high) (hs : s2 < s1) :
    recTier (getRecommendation t s2) ≤ recTier (getRecommendation t s1) := by
  unfold getRecommendation
  split_ifs <;> first | decide | (exfalso ; omega)

/-- Claim C6, witness: the monotonicity applied at the default threshold
table with scores 80 and 60. -/
theorem c6_recommendation_monotone_witness :
    (50 : Nat) < 70 ∧ (70 : Nat) < 90 ∧ (60 : Nat) < 80 ∧
    recTier (getRecommendation { high := 90, medium := 70, low := 50 } 60) ≤
      recTier (getRecommendation { high := 90, medium := 70, low := 50 } 80) :=
  ⟨by decide, by decide, by decide,
   c6_recommendation_monotone { high := 90, medium := 70, low := 50 } 80 60
     (by decide) (by decide) (by decide)⟩

/-- Claim C7 (confirmed): the data-consistency check scores the itemized
sum — address +3, parseable in-range coordinates +4, phone +2,
category +1 — capped at the configured max, with status `pass` exactly
when the raw pre-cap points reach 5 and `partial` otherwise; and on the
spec's Scenario A body (all four items present) the raw points are 10
and the score at the default configuration is `min(10, 10) = 10`. -/
theorem c7_data_consistency :
    (∀ (d : MerchantRecord) (w : Weights),
      (checkDataConsistency d w).score = min (consistencyPoints d) w.data_consistency ∧
      (checkDataConsistency d w).status =
        (if 5 ≤ consistencyPoints d then CheckStatus.pass else CheckStatus.semiPass) ∧
      (checkDataConsistency d w).max_score = w.data_consistency) ∧
    consistencyPoints (parseIssue "Joe Cafe" scenarioABody) = 10 ∧
    (checkDataConsistency (parseIssue "Joe Cafe" scenarioABody) defaultWeights).score = 10 := by
  refine ⟨fun d w => ?_, by decide, by decide⟩
  unfold checkDataConsistency
  rw [consistencyRaw_eq]
  exact ⟨rfl, rfl, rfl⟩

/-- Claim C8, counterexample: with auto-send configured, the social-DM
channel ends with status `drafted`, not `sent` as the claim states. -/
theorem c8_social_dm_counterexample :
    (verifySocialDm true).status ≠ OutreachStatus.sent := by decide

/-- Claim C8 (corrected): the social-DM channel ends the run with status
`drafted` whether or not auto-send is configured (unlike the email
channel, it never reaches `sent`); the auto-send flag only changes the
`details['action']` tag (`drafted` vs `drafted_for_review`), and the
score stays 0 until confirmation. -/
theorem c8_social_dm_status (autoSend : Bool) :
    (verifySocialDm autoSend).status = OutreachStatus.drafted ∧
    (verifySocialDm autoSend).score = 0 ∧
    (verifySocialDm autoSend).action =
      some (if autoSend then "drafted" else "drafted_for_review") := by
  cases autoSend <;> exact ⟨rfl, rfl, rfl⟩

/-- Claim C9 (confirmed): the batch loop yields exactly one entry per
submission, in order — a submission whose processing fails contributes
the error entry built from its identifier and error message while the
loop continues — so the results list is precisely the per-issue entry
map and has the same length as the batch. -/
theorem c9_batch_isolation {α : Type} (process : Issue → Except String α)
    (issues : List Issue) :
    runBatch process issues = issues.map (entryFor process) ∧
    (runBatch process issues).length = issues.length := by
  have h : runBatch process issues = issues.map (entryFor process) := by
    induction issues with
    | nil => rfl
    | cons i rest ih =>
      simp only [runBatch, List.map, ih]
      rfl
  exact ⟨h, by rw [h, List.length_map]⟩

/-- Claim C10 (confirmed): whenever the body contains `Origin: square`,
or contains `Id:` and (case-insensitively) `square`, the parser tags the
record with source `square` and applies the square rule table — even if
the body also contains the `Merchant name:` label of the manual
format. -/
theorem c10_square_priority (t b : String)
    (h : containsSub b "Origin: square" = true ∨
         (containsSub b "Id:" = true ∧ containsSub (lowerStr b) "square" = true)) :
    (parseIssue t b).source = Source.square ∧
    parseIssue t b = applySquare { baseRecord t b with source := Source.square } b := by
  have hd : detectSquare b = true := by
    unfold detectSquare
    rcases h with h | ⟨ha, hb⟩
    · simp [h]
    · simp [ha, hb]
  unfold parseIssue
  rw [if_pos hd]
  constructor
  · rw [applySquare_source]
  · rfl

/-- Claim C10, witness: the square priority applied to a body that fires
the `Id:`-plus-`square` conjunction while also carrying the manual
`Merchant name:` label. -/
theorem c10_square_priority_witness :
    (containsSub squareAndManualBody "Id:" = true ∧
     containsSub (lowerStr squareAndManualBody) "square" = true ∧
     containsSub squareAndManualBody "Merchant name:" = true) ∧
    (parseIssue "SqTest" squareAndManualBody).source = Source.square ∧
    parseIssue "SqTest" squareAndManualBody =
      applySquare { baseRecord "SqTest" squareAndManualBody with source := Source.square }
        squareAndManualBody :=
  ⟨by decide,
   c10_square_priority "SqTest" squareAndManualBody (Or.inr ⟨by decide, by decide⟩)⟩

end Triage
